import Mathlib

/-!
Verification development for the carbon-leakage dashboard repository
(steel-import / ETS-price econometrics).

Shallow embedding conventions:
* JavaScript numbers are modelled exactly: values that provably stay finite
  rational are `ℚ`; computations that can hit division by zero (Gaussian
  elimination, OLS slope) run over `JNum`, an extension of `ℚ` by the IEEE
  special values `NaN` and `±Infinity` with JavaScript arithmetic semantics.
* `null`/`undefined` observations are `Option.none`; a JavaScript truthiness
  test on a number field (`x || null`, `prev && prev.v`) treats `some 0`
  as falsy, exactly as JS does.
* `yearMonth` keys ("YYYY-MM") and month-granularity `Date` values are both
  encoded as month codes `year * 12 + (month - 1) : ℕ`; lexicographic order on
  the "YYYY-MM" strings and numeric order on date values coincide with the
  numeric order of the codes, and `getFullYear` is division by 12.
* `Math.sqrt`, `Math.log`, `Math.exp` on positive arguments are modelled by
  function parameters `fsqrt fexp jlog : ℚ → ℚ`; the special-value cases
  (negative / zero / NaN / infinite arguments) follow the JS semantics.
* `Array.prototype.sort`, JS `Map` key grouping and `Set` deduplication are
  modelled by a stable insertion sort and `List.dedup`; since every sorted key
  set here is duplicate-free this is observation-equivalent to the JS order.
-/

set_option maxRecDepth 16000

namespace CarbonLeakage

/-! ## JavaScript number semantics (`JNum`) -/

/-- A JavaScript double, idealised: an exact rational, `±Infinity`, or `NaN`.
(The sign of zero is not tracked; no claim depends on it.) -/
inductive JNum where
  | num (q : ℚ)
  | posInf
  | negInf
  | nan
deriving DecidableEq

namespace JNum

/-- JS addition. -/
def jadd : JNum → JNum → JNum
  | nan, _ => nan
  | _, nan => nan
  | num a, num b => num (a + b)
  | posInf, negInf => nan
  | negInf, posInf => nan
  | posInf, _ => posInf
  | _, posInf => posInf
  | negInf, _ => negInf
  | _, negInf => negInf

/-- JS unary minus. -/
def jneg : JNum → JNum
  | nan => nan
  | num a => num (-a)
  | posInf => negInf
  | negInf => posInf

/-- JS subtraction (`a - b` behaves as `a + (-b)` for doubles). -/
def jsub (a b : JNum) : JNum := jadd a (jneg b)

/-- JS multiplication (`0 * ±Infinity = NaN`). -/
def jmul : JNum → JNum → JNum
  | nan, _ => nan
  | _, nan => nan
  | num a, num b => num (a * b)
  | num a, posInf => if a = 0 then nan else if 0 < a then posInf else negInf
  | posInf, num a => if a = 0 then nan else if 0 < a then posInf else negInf
  | num a, negInf => if a = 0 then nan else if 0 < a then negInf else posInf
  | negInf, num a => if a = 0 then nan else if 0 < a then negInf else posInf
  | posInf, posInf => posInf
  | negInf, negInf => posInf
  | posInf, negInf => negInf
  | negInf, posInf => negInf

/-- JS division (`0/0 = NaN`, `a/0 = ±Infinity` for `a ≠ 0`, `∞/∞ = NaN`). -/
def jdiv : JNum → JNum → JNum
  | nan, _ => nan
  | _, nan => nan
  | num a, num b =>
      if b = 0 then (if a = 0 then nan else if 0 < a then posInf else negInf)
      else num (a / b)
  | num _, posInf => num 0
  | num _, negInf => num 0
  | posInf, num b => if 0 ≤ b then posInf else negInf
  | negInf, num b => if 0 ≤ b then negInf else posInf
  | posInf, posInf => nan
  | posInf, negInf => nan
  | negInf, posInf => nan
  | negInf, negInf => nan

/-- JS `Math.abs`. -/
def jabs : JNum → JNum
  | nan => nan
  | num a => num |a|
  | posInf => posInf
  | negInf => posInf

/-- JS `<` comparison (false whenever `NaN` is involved). -/
def jlt : JNum → JNum → Bool
  | nan, _ => false
  | _, nan => false
  | num a, num b => decide (a < b)
  | num _, posInf => true
  | num _, negInf => false
  | posInf, _ => false
  | negInf, negInf => false
  | negInf, _ => true

/-- JS `>` comparison. -/
def jgt (a b : JNum) : Bool := jlt b a

/-- JS `Math.pow(a, 2)`. -/
def jpow2 (a : JNum) : JNum := jmul a a

/-- JS `Math.sqrt`, with the finite positive branch supplied by `f`. -/
def jsqrtL (f : ℚ → ℚ) : JNum → JNum
  | nan => nan
  | negInf => nan
  | posInf => posInf
  | num q => if q < 0 then nan else if q = 0 then num 0 else num (f q)

/-- JS `Math.exp`, with the finite branch supplied by `f`. -/
def jexpL (f : ℚ → ℚ) : JNum → JNum
  | nan => nan
  | negInf => num 0
  | posInf => posInf
  | num q => num (f q)

/-- JS division of two plain (finite) numbers. -/
def jdivQ (a b : ℚ) : JNum :=
  if b = 0 then (if a = 0 then nan else if 0 < a then posInf else negInf)
  else num (a / b)

instance : Add JNum := ⟨jadd⟩
instance : Sub JNum := ⟨jsub⟩
instance : Mul JNum := ⟨jmul⟩
instance : Div JNum := ⟨jdiv⟩
instance : Neg JNum := ⟨jneg⟩
instance : Inhabited JNum := ⟨nan⟩

end JNum

/-! ## Stable sorting by a key (JS `Array.prototype.sort` with a numeric
comparator, and the lexicographic sort of "YYYY-MM" key strings) -/

/-- Stable insertion of `a` into a list sorted by `key`. -/
def insertSorted {α : Type} {β : Type} [LinearOrder β] (key : α → β) (a : α) :
    List α → List α
  | [] => [a]
  | b :: l => if key a ≤ key b then a :: b :: l else b :: insertSorted key a l

/-- Stable sort by a key, ascending. -/
def sortByKey {α : Type} {β : Type} [LinearOrder β] (key : α → β) :
    List α → List α
  | [] => []
  | a :: l => insertSorted key a (sortByKey key l)


/-! ## Panel data model

Source rows fed into `mergeDatasets` (src/unnamed/part_000 `aggregateImports`
output, ETS rows, industry rows).  The `countries` field of import totals is
not consulted by any merged-panel computation and is omitted. -/

/-- One aggregated import row (`importsAggregated.total[i]`). -/
structure ImportTotalsRow where
  date : ℕ
  yearMonth : ℕ
  totalQuantity_tons : ℚ
  totalValue_eur : ℚ
  unit_value : ℚ
deriving DecidableEq

/-- One ETS carbon-price row. -/
structure EtsRow where
  date : ℕ
  yearMonth : ℕ
  price : ℚ
deriving DecidableEq

/-- One industrial-activity index row. -/
structure IndustryRow where
  date : ℕ
  yearMonth : ℕ
  index : ℚ
deriving DecidableEq

/-- A merged-panel record.  Fields absent at a given pipeline stage are
`none`, mirroring absent JS object keys; `frequency` is set only by the
annual aggregator. -/
structure PanelRow where
  date : ℕ := 0
  yearMonth : ℕ := 0
  year : Option ℕ := none
  (importQuantity_tons : Option ℚ := none)
  (importValue_eur : Option ℚ := none)
  (importUnitValue : Option ℚ := none)
  etsPrice : Option ℚ := none
  industryIndex : Option ℚ := none
  (importGrowth : Option ℚ := none)
  (importGrowthYoY : Option ℚ := none)
  valueGrowth : Option ℚ := none
  etsGrowth : Option ℚ := none
  etsMA3 : Option ℚ := none
  etsMA12 : Option ℚ := none
  (importMA3 : Option ℚ := none)
  (importMA12 : Option ℚ := none)
  logImport : Option ℚ := none
  logETS : Option ℚ := none
  logIndustry : Option ℚ := none
  cbamDummy : Option ℚ := none
  frequency : Option String := none
deriving DecidableEq, Inhabited

/-- JS `entry?.field || null` for a numeric field: `undefined` and the falsy
number `0` both become `null`. -/
def jsNumOrNull : Option ℚ → Option ℚ
  | none => none
  | some v => if v = 0 then none else some v

/-- Calendar year of a month-code date (`new Date(d).getFullYear()`). -/
def yearOfDate (d : ℕ) : ℕ := d / 12

/-! ## `mergeDatasets` (src/unnamed/part_000 lines 629-658; the
src/unnamed/part_001 lines 1025-1055 version is textually identical except
that its final comparator writes `a.date - b.date` without re-wrapping the
dates, which is the same numeric comparison). -/

/-- The merged row built for period key `p` from the first matching row of
each source (`Array.prototype.find`). -/
def mergedRowFor (imports : List ImportTotalsRow) (ets : List EtsRow)
    (industry : List IndustryRow) (p : ℕ) : PanelRow :=
  let ie := imports.find? (fun r => r.yearMonth == p)
  let ee := ets.find? (fun r => r.yearMonth == p)
  let ne := industry.find? (fun r => r.yearMonth == p)
  { date := ((ie.map (·.date)).or ((ee.map (·.date)).or (ne.map (·.date)))).getD 0
    yearMonth := p, importQuantity_tons := jsNumOrNull (ie.map (·.totalQuantity_tons))
    etsPrice := jsNumOrNull (ee.map (·.price)), importValue_eur := jsNumOrNull (ie.map (·.totalValue_eur))
    industryIndex := jsNumOrNull (ne.map (·.index)), importUnitValue := jsNumOrNull (ie.map (·.unit_value)) }

/-- `mergeDatasets`: sparse union of the three sources over period keys,
sorted key traversal, `|| null` field coercion, final sort by date. -/
def mergeDatasets (imports : List ImportTotalsRow) (ets : List EtsRow)
    (industry : List IndustryRow) : List PanelRow :=
  let allPeriods :=
    ((imports.map (·.yearMonth)) ++ (ets.map (·.yearMonth)) ++
      (industry.map (·.yearMonth))).dedup
  let rows := (sortByKey id allPeriods).filterMap (fun p =>
    let ie := imports.find? (fun r => r.yearMonth == p)
    let ee := ets.find? (fun r => r.yearMonth == p)
    let ne := industry.find? (fun r => r.yearMonth == p)
    if ie = none ∧ ee = none ∧ ne = none then none
    else some (mergedRowFor imports ets industry p))
  sortByKey (·.date) rows

/-! ## `calculateDerivedIndicators` (src/unnamed/part_000 lines 663-736; the
part_001 lines 1060-1129 version is identical except that it does not add the
`cbamDummy` field). -/

/-- JS growth guard: `prev && prev.v && entry.v ? ((entry.v - prev.v) /
prev.v) * 100 : null`.  Truthiness makes `some 0` on either side yield
`null`. -/
def jsGrowth (prevRow : Option PanelRow) (field : PanelRow → Option ℚ)
    (cur : Option ℚ) : Option ℚ :=
  match prevRow with
  | none => none
  | some p =>
      match field p, cur with
      | some a, some b => if a = 0 ∨ b = 0 then none else some ((b - a) / a * 100)
      | _, _ => none

/-- `array.slice(s, e)`. -/
def jsSlice {α : Type} (l : List α) (s e : ℕ) : List α := (l.drop s).take (e - s)

/-- Trailing-window moving average of the non-null entries of a field. -/
def windowMA (w : List PanelRow) (field : PanelRow → Option ℚ) : Option ℚ :=
  let vs := w.filterMap field
  if 0 < vs.length then some (vs.sum / vs.length) else none

/-- Guarded log transform: `entry.v && entry.v > 0 ? Math.log(entry.v) :
null`. -/
def jsLog (jlog : ℚ → ℚ) : Option ℚ → Option ℚ
  | none => none
  | some v => if 0 < v then some (jlog v) else none

/-- The derived row at index `idx` (the body of the JS `map((entry, index) =>
...)` callback). -/
def derivedRow (jlog : ℚ → ℚ) (data : List PanelRow) (idx : ℕ) : PanelRow :=
  let entry := data.getD idx default
  let prev : Option PanelRow :=
    if 0 < idx then some (data.getD (idx - 1) default) else none
  let prev12 : Option PanelRow :=
    if 12 ≤ idx then some (data.getD (idx - 12) default) else none
  let window3 := jsSlice data (idx - 2) (idx + 1)
  let window12 := jsSlice data (idx - 11) (idx + 1)
  let year := yearOfDate entry.date
  { entry with
    valueGrowth := jsGrowth prev (·.importValue_eur) entry.importValue_eur
    etsGrowth := jsGrowth prev (·.etsPrice) entry.etsPrice
    etsMA3 := windowMA window3 (·.etsPrice), importGrowth := jsGrowth prev (·.importQuantity_tons) entry.importQuantity_tons
    etsMA12 := windowMA window12 (·.etsPrice), importGrowthYoY := jsGrowth prev12 (·.importQuantity_tons) entry.importQuantity_tons
    logImport := jsLog jlog entry.importQuantity_tons, importMA3 := windowMA window3 (·.importQuantity_tons)
    logETS := jsLog jlog entry.etsPrice, importMA12 := windowMA window12 (·.importQuantity_tons)
    logIndustry := jsLog jlog entry.industryIndex
    cbamDummy := some (if 2023 ≤ year ∧ year ≤ 2025 then 1 else 0) }

/-- `calculateDerivedIndicators`. -/
def calculateDerivedIndicators (jlog : ℚ → ℚ) (mergedData : List PanelRow) :
    List PanelRow :=
  (List.range mergedData.length).map (derivedRow jlog mergedData)

/-! ## `aggregateToAnnual` (src/unnamed/part_002 lines 36-110)

The JS `Map` accumulates, per calendar year in first-encounter order, the
arrays of non-null monthly values; per-year content equals filtering the
input by that year.  The output is finally sorted by date, and the year keys
are distinct, so modelling the key order by `List.dedup` is
observation-equivalent. -/

/-- The annual record built for year `y` from the monthly rows of that
year. -/
def annualRowFor (jlog : ℚ → ℚ) (mergedData : List PanelRow) (y : ℕ) :
    PanelRow :=
  let group := mergedData.filter (fun r => yearOfDate r.date == y)
  let iq := group.filterMap (·.importQuantity_tons)
  let iv := group.filterMap (·.importValue_eur)
  let ets := group.filterMap (·.etsPrice)
  let ind := group.filterMap (·.industryIndex)
  let totalImports : ℚ := iq.sum
  let totalValue : ℚ := iv.sum
  let avgETS : Option ℚ :=
    if 0 < ets.length then some (ets.sum / ets.length) else none
  let avgIndustry : Option ℚ :=
    if 0 < ind.length then some (ind.sum / ind.length) else none
  { date := y * 12
    year := some y
    yearMonth := y * 12, importQuantity_tons := if 0 < totalImports then some totalImports else none
    etsPrice := avgETS, importValue_eur := if 0 < totalValue then some totalValue else none
    industryIndex := avgIndustry, importUnitValue := if 0 < totalImports then some (totalValue / totalImports) else none
    cbamDummy := some (((group.head?.bind (·.cbamDummy)).getD 0))
    logImport := if 0 < totalImports then some (jlog totalImports) else none
    logETS :=
      match avgETS with
      | some v => if 0 < v then some (jlog v) else none
      | none => none
    logIndustry :=
      match avgIndustry with
      | some v => if 0 < v then some (jlog v) else none
      | none => none
    frequency := some "annual" }

/-- `aggregateToAnnual`: group by calendar year, sum flows, average levels,
log-transform, sort by date. -/
def aggregateToAnnual (jlog : ℚ → ℚ) (mergedData : List PanelRow) :
    List PanelRow :=
  if mergedData = [] then []
  else
    let years := (mergedData.map (fun r => yearOfDate r.date)).dedup
    sortByKey (·.date) (years.map (annualRowFor jlog mergedData))

/-! ## `detectOverlappingPeriod` / `prepareDataset`
(src/unnamed/part_002 lines 9-31 and 115-146) -/

/-- All six regression variables present. -/
def hasAllRequired (d : PanelRow) : Bool :=
  d.importQuantity_tons.isSome && d.etsPrice.isSome && d.industryIndex.isSome
    && d.logImport.isSome && d.logETS.isSome && d.logIndustry.isSome

/-- `detectOverlappingPeriod` return value. -/
structure OverlapInfo where
  start : ℕ
  stop : ℕ
  count : ℕ
  periods : List PanelRow
deriving DecidableEq

/-- `detectOverlappingPeriod`: the rows with all required variables, with the
min/max of their dates. -/
def detectOverlappingPeriod (mergedData : List PanelRow) : Option OverlapInfo :=
  if mergedData = [] then none
  else
    let validPeriods := mergedData.filter hasAllRequired
    if validPeriods = [] then none
    else
      let dates := validPeriods.map (·.date)
      some { start := dates.min?.getD 0
             stop := dates.max?.getD 0
             count := validPeriods.length
             periods := validPeriods }

/-- `prepareDataset` return value. -/
structure PreparedDataset where
  data : List PanelRow
  frequency : String
  overlap : Option OverlapInfo
  message : String
deriving DecidableEq

/-- `prepareDataset`: monthly if at least 20 fully-overlapping rows,
otherwise annual aggregation of exactly the overlapping rows. -/
def prepareDataset (jlog : ℚ → ℚ) (mergedData : List PanelRow) :
    PreparedDataset :=
  match detectOverlappingPeriod mergedData with
  | none =>
      ⟨[], "none", none,
        "No overlapping observations found across all required variables."⟩
  | some overlap =>
      if overlap.count = 0 then
        ⟨[], "none", none,
          "No overlapping observations found across all required variables."⟩
      else if overlap.count < 20 then
        let annualData := aggregateToAnnual jlog overlap.periods
        ⟨annualData, "annual", detectOverlappingPeriod annualData,
          "Monthly data insufficient (" ++ toString overlap.count ++
            " observations). Aggregated to annual frequency (" ++
            toString annualData.length ++ " observations)."⟩
      else
        ⟨overlap.periods, "monthly", some overlap,
          "Using monthly frequency with " ++ toString overlap.count ++
            " overlapping observations."⟩

/-! ## `determineFeasibleLagLength` (src/unnamed/part_002 lines 151-199) -/

/-- Result of the lag-length feasibility gate. -/
structure LagResult where
  feasible : Bool
  maxLag : ℕ
  reason : String
deriving DecidableEq

/-- The JS `for (let k = 1; k <= 12; k++) { if (n >= 10 + (k+1) + 1) maxLag =
k; else break; }` search, as structural recursion on the remaining iteration
count (`fuel = 12` initially, `k` the current candidate, `m` the accumulator). -/
def lagSearch (n : ℕ) : ℕ → ℕ → ℕ → ℕ
  | 0, _, m => m
  | fuel + 1, k, m => if 10 + (k + 1) + 1 ≤ n then lagSearch n fuel (k + 1) k else m

/-- `determineFeasibleLagLength` (the JS `minParams` parameter defaults to 3
at every call site). -/
def determineFeasibleLagLength (n : ℕ) (frequency : String) (minParams : ℕ) :
    LagResult :=
  let minN := 20
  let minNForLags := 10 + minParams
  if n < minN then
    ⟨false, 0, "Insufficient observations for regression analysis"⟩
  else if frequency == "annual" then
    let maxLag := if minNForLags + 1 ≤ n then 1 else 0
    ⟨decide (0 < maxLag), maxLag,
      if maxLag = 0 then "Insufficient annual observations for lagged models"
      else "Annual data: maximum lag length K=1"⟩
  else if n < minNForLags + 3 then
    ⟨false, 0, "Insufficient observations for lagged models"⟩
  else
    let rawLag := lagSearch n 12 1 0
    let maxLag :=
      if n < 50 then min rawLag 3
      else if n < 100 then min rawLag 6
      else rawLag
    ⟨decide (0 < maxLag), maxLag,
      if maxLag = 0 then "Insufficient observations for lagged models"
      else "Monthly data: maximum feasible lag length K=" ++ toString maxLag⟩

/-! ## CBAM feasibility and descriptive comparison
(src/unnamed/part_002 lines 204-277) -/

/-- Rows dated before the CBAM intervention (year < 2023). -/
def preCBAMCount (data : List PanelRow) : ℕ :=
  (data.filter (fun d => yearOfDate d.date < 2023)).length

/-- Rows dated within the CBAM window (2023-2025). -/
def postCBAMCount (data : List PanelRow) : ℕ :=
  (data.filter (fun d =>
    2023 ≤ yearOfDate d.date ∧ yearOfDate d.date ≤ 2025)).length

/-- `checkCBAMFeasibility` return value. -/
structure CBAMFeasibility where
  feasible : Bool
  preCBAM : ℕ
  postCBAM : ℕ
  reason : String
deriving DecidableEq

/-- `checkCBAMFeasibility`. -/
def checkCBAMFeasibility (data : List PanelRow) : CBAMFeasibility :=
  if data = [] then ⟨false, 0, 0, "No data available"⟩
  else
    let pre := preCBAMCount data
    let post := postCBAMCount data
    let feasible := decide (10 ≤ pre ∧ 5 ≤ post)
    ⟨feasible, pre, post,
      if feasible then
        "Sufficient observations: " ++ toString pre ++ " pre-CBAM, " ++
          toString post ++ " post-CBAM"
      else
        "Insufficient post-CBAM observations (" ++ toString post ++
          " < 5 required). Pre-CBAM: " ++ toString pre⟩

/-- Per-window descriptive statistics (`calcStats`). -/
structure PeriodStats where
  n : ℕ
  avgImports : ℚ
  avgPrice : ℚ
  medianImports : ℚ
  medianPrice : ℚ
deriving DecidableEq

/-- `calculateCBAMDescriptive` return value. -/
structure CBAMDescriptive where
  preCBAM : PeriodStats
  postCBAM : PeriodStats
  (importChange : ℚ)
  priceChange : ℚ
deriving DecidableEq

/-- The `calcStats` closure of `calculateCBAMDescriptive`.  (ℚ division by
zero returns 0 where JS would give `Infinity`; every mean here divides by a
non-zero length, and no claim constrains the change ratios.) -/
def calcStats (period : List PanelRow) : PeriodStats :=
  let imports := period.filterMap (·.importQuantity_tons)
  let prices := period.filterMap (·.etsPrice)
  { n := period.length
    avgImports := imports.sum / imports.length
    avgPrice := prices.sum / prices.length
    medianImports := (sortByKey id imports).getD (imports.length / 2) 0
    medianPrice := (sortByKey id prices).getD (prices.length / 2) 0 }

/-- `calculateCBAMDescriptive`: pre/post window means, medians and percent
changes, or `null` when either window has no complete observation. -/
def calculateCBAMDescriptive (data : List PanelRow) : Option CBAMDescriptive :=
  if data = [] then none
  else
    let pre := data.filter (fun d =>
      yearOfDate d.date < 2023 && d.importQuantity_tons.isSome &&
        d.etsPrice.isSome)
    let post := data.filter (fun d =>
      2023 ≤ yearOfDate d.date && yearOfDate d.date ≤ 2025 &&
        d.importQuantity_tons.isSome && d.etsPrice.isSome)
    if pre = [] ∨ post = [] then none
    else
      let preStats := calcStats pre
      let postStats := calcStats post
      some { preCBAM := preStats
             postCBAM := postStats, importChange := (postStats.avgImports - preStats.avgImports) / preStats.avgImports * 100
             priceChange := (postStats.avgPrice - preStats.avgPrice) / preStats.avgPrice * 100 }

/-! ## Linear algebra and OLS (src/src/utils/econometricAnalysis.js)

Matrix entries use `JNum`; an out-of-bounds JS index is `undefined`, and
arithmetic with `undefined` yields `NaN`, so the default element is
`JNum.nan`. -/

open JNum

/-- `m[i][j]` with JS out-of-bounds semantics. -/
def getEntry (m : List (List JNum)) (i j : ℕ) : JNum :=
  (m.getD i []).getD j JNum.nan

/-- `m[i][j] = v` (in-place array write, functionally). -/
def setEntry (m : List (List JNum)) (i j : ℕ) (v : JNum) :
    List (List JNum) :=
  m.set i ((m.getD i []).set j v)

/-- `[m[i], m[j]] = [m[j], m[i]]`. -/
def swapRows (m : List (List JNum)) (i j : ℕ) : List (List JNum) :=
  let ri := m.getD i []
  let rj := m.getD j []
  (m.set i rj).set j ri

/-- `transpose` (econometricAnalysis.js line 665). -/
def transpose (m : List (List JNum)) : List (List JNum) :=
  (List.range (m.headD []).length).map (fun c => m.map (fun row => row.getD c JNum.nan))

/-- `matrixMultiply` (line 669). -/
def matrixMultiply (a b : List (List JNum)) : List (List JNum) :=
  (List.range a.length).map (fun i =>
    (List.range (b.headD []).length).map (fun j =>
      (List.range (a.headD []).length).foldl
        (fun s k2 => jadd s (jmul (getEntry a i k2) (getEntry b k2 j)))
        (num 0)))

/-- `matrixVectorMultiply` (line 684). -/
def matrixVectorMultiply (m : List (List JNum)) (v : List JNum) : List JNum :=
  m.map (fun row =>
    row.enum.foldl (fun s iv => jadd s (jmul iv.2 (v.getD iv.1 JNum.nan)))
      (num 0))

/-- `solveLinearSystem` (lines 690-726): Gaussian elimination with partial
pivoting and back-substitution.  The pivot division is UNGUARDED: the
function always returns an `n`-vector (possibly containing `NaN`/`Infinity`),
never a failure value. -/
def solveLinearSystem (A : List (List JNum)) (b : List JNum) : List JNum :=
  let n := A.length
  let augmented := A.enum.map (fun ir => ir.2 ++ [b.getD ir.1 JNum.nan])
  let aug2 := (List.range n).foldl (fun aug i =>
    let maxRow := (List.range' (i + 1) (n - (i + 1))).foldl
      (fun mr k =>
        if jlt (jabs (getEntry aug mr i)) (jabs (getEntry aug k i)) then k
        else mr) i
    let aug := swapRows aug i maxRow
    (List.range' (i + 1) (n - (i + 1))).foldl (fun aug k =>
      let factor := jdiv (getEntry aug k i) (getEntry aug i i)
      (List.range' i (n + 1 - i)).foldl
        (fun aug j =>
          setEntry aug k j (jsub (getEntry aug k j) (jmul factor (getEntry aug i j))))
        aug) aug) augmented
  (List.range n).reverse.foldl (fun x i =>
    let v0 := getEntry aug2 i n
    let v1 := (List.range' (i + 1) (n - (i + 1))).foldl
      (fun acc j => jsub acc (jmul (getEntry aug2 i j) (x.getD j JNum.nan))) v0
    x.set i (jdiv v1 (getEntry aug2 i i))) (List.replicate n JNum.nan)

/-- `calculateStandardErrors` (line 728): diagonal approximation. -/
def calculateStandardErrors (fsqrt : ℚ → ℚ) (XtX : List (List JNum))
    (mse : JNum) : List JNum :=
  (List.range XtX.length).map (fun i =>
    jsqrtL fsqrt (jmul mse (jabs (getEntry XtX i i))))

/-- `erf` approximation (line 647). -/
def erf (fexp : ℚ → ℚ) (x : JNum) : JNum :=
  let a1 : ℚ := 0.254829592
  let a2 : ℚ := -0.284496736
  let a3 : ℚ := 1.421413741
  let a4 : ℚ := -1.453152027
  let a5 : ℚ := 1.061405429
  let p : ℚ := 0.3275911
  let sign := if jlt x (num 0) then num (-1) else num 1
  let x := jabs x
  let t := jdiv (num 1) (jadd (num 1) (jmul (num p) x))
  let y := jsub (num 1)
    (jmul
      (jmul
        (jadd
          (jmul
            (jadd
              (jmul
                (jadd
                  (jmul (jadd (jmul (num a5) t) (num a4)) t)
                  (num a3)) t)
              (num a2)) t)
          (num a1)) t)
      (jexpL fexp (jneg (jmul x x))))
  jmul sign y

/-- `normalCDF` (line 642). -/
def normalCDF (fsqrt fexp : ℚ → ℚ) (z : JNum) : JNum :=
  jmul (num 0.5) (jadd (num 1) (erf fexp (jdiv z (jsqrtL fsqrt (num 2)))))

/-- `approximatePValue` (line 621). -/
def approximatePValue (fsqrt fexp : ℚ → ℚ) (tStat : JNum) (df : ℕ) : JNum :=
  if 30 < df then
    jmul (num 2) (jsub (num 1) (normalCDF fsqrt fexp (jabs tStat)))
  else
    let absT := jabs tStat
    if jlt absT (num 0.5) then num 0.6
    else if jlt absT (num 1) then num 0.3
    else if jlt absT (num 1.5) then num 0.15
    else if jlt absT (num 2) then num 0.05
    else if jlt absT (num 2.5) then num 0.02
    else if jlt absT (num 3) then num 0.01
    else num 0.001

/-! ## `simpleOLS` (lines 5-60) -/

/-- `simpleOLS` return value. -/
structure SimpleOLSResult where
  intercept : JNum
  slope : JNum
  rSquared : JNum
  standardError : JNum
  seSlope : JNum
  tStat : JNum
  pValue : JNum
  n : ℕ
deriving DecidableEq

/-- The valid (non-null on both sides) pairs `{y, x}` of `simpleOLS`. -/
def validPairs (y x : List (Option ℚ)) : List (ℚ × ℚ) :=
  (List.range (min y.length x.length)).filterMap (fun i =>
    match y.getD i none, x.getD i none with
    | some a, some b => some (a, b)
    | _, _ => none)

/-- `simpleOLS`: bivariate regression.  Sums and means are exact rationals;
the slope division is the JS division (`0/0 = NaN` when x has zero
variance), and everything downstream of the slope is `JNum`. -/
def simpleOLS (fsqrt fexp : ℚ → ℚ) (y x : List (Option ℚ)) :
    Option SimpleOLSResult :=
  let pairs := validPairs y x
  if pairs.length < 2 then none
  else
    let m : ℚ := pairs.length
    let sumX := (pairs.map (·.2)).sum
    let sumY := (pairs.map (·.1)).sum
    let sumXY := (pairs.map (fun p => p.2 * p.1)).sum
    let sumXX := (pairs.map (fun p => p.2 * p.2)).sum
    let meanX := sumX / m
    let meanY := sumY / m
    let slope := jdivQ (sumXY - m * meanX * meanY) (sumXX - m * meanX * meanX)
    let intercept := jsub (num meanY) (jmul slope (num meanX))
    let yPred := pairs.map (fun p => jadd intercept (jmul slope (num p.2)))
    let ssRes := (pairs.zip yPred).foldl
      (fun s pyp => jadd s (jpow2 (jsub (num pyp.1.1) pyp.2))) (num 0)
    let ssTot : ℚ := (pairs.map (fun p => (p.1 - meanY) * (p.1 - meanY))).sum
    let rSquared :=
      if 0 < ssTot then jsub (num 1) (jdiv ssRes (num ssTot)) else num 0
    let standardError := jsqrtL fsqrt (jdiv ssRes (num (m - 2)))
    let seSlope := jdiv standardError
      (jsqrtL fsqrt (num ((pairs.map (fun p => (p.2 - meanX) * (p.2 - meanX))).sum)))
    let tStat := if jgt seSlope (num 0) then jdiv slope seSlope else num 0
    let pValue := approximatePValue fsqrt fexp tStat (pairs.length - 2)
    some ⟨intercept, slope, rSquared, standardError, seSlope, tStat, pValue,
      pairs.length⟩

/-! ## `multipleOLS` (lines 68-143) -/

/-- `multipleOLS` return value. -/
structure MultipleOLSResult where
  coefficients : List JNum
  rSquared : JNum
  standardErrors : List JNum
  tStats : List JNum
  pValues : List JNum
  n : ℕ
deriving DecidableEq

/-- The indices where `y` and every regressor are present. -/
def validIndices (y : List (Option ℚ)) (x : List (List (Option ℚ))) : List ℕ :=
  (List.range y.length).filter (fun i =>
    (y.getD i none).isSome &&
      (List.range x.length).all (fun j => ((x.getD j []).getD i none).isSome))

/-- `multipleOLS`: normal-equations OLS.  The JS `if (!coefficients) return
null` guard after `solveLinearSystem` can never fire (an array is truthy) and
is therefore absent here; see the singular-system theorem. -/
def multipleOLS (fsqrt fexp : ℚ → ℚ) (y : List (Option ℚ))
    (x : List (List (Option ℚ))) : Option MultipleOLSResult :=
  let n := y.length
  let k := x.length
  if n < k + 1 then none
  else
    let idxs := validIndices y x
    if idxs.length < k + 1 then none
    else
      let Y : List ℚ := idxs.map (fun i => (y.getD i none).getD 0)
      let X : List (List ℚ) := idxs.map (fun i =>
        1 :: (List.range k).map (fun j => ((x.getD j []).getD i none).getD 0))
      let XJ : List (List JNum) := X.map (·.map JNum.num)
      let Xt := transpose XJ
      let XtX := matrixMultiply Xt XJ
      let XtY := matrixVectorMultiply Xt (Y.map JNum.num)
      let coefficients := solveLinearSystem XtX XtY
      let yPred := XJ.map (fun row =>
        (List.range k).foldl
          (fun s j => jadd s (jmul (coefficients.getD (j + 1) JNum.nan)
            (row.getD (j + 1) JNum.nan)))
          (coefficients.getD 0 JNum.nan))
      let meanY : ℚ := Y.sum / Y.length
      let ssRes := (Y.zip yPred).foldl
        (fun s yp => jadd s (jpow2 (jsub (num yp.1) yp.2))) (num 0)
      let ssTot : ℚ := (Y.map (fun yi => (yi - meanY) * (yi - meanY))).sum
      let rSquared :=
        if 0 < ssTot then jsub (num 1) (jdiv ssRes (num ssTot)) else num 0
      let mse := jdiv ssRes (num ((idxs.length : ℚ) - k - 1))
      let standardErrors := calculateStandardErrors fsqrt XtX mse
      let tStats := coefficients.enum.map (fun ic =>
        if jgt (standardErrors.getD ic.1 JNum.nan) (num 0) then
          jdiv ic.2 (standardErrors.getD ic.1 JNum.nan)
        else num 0)
      let pValues := tStats.map (fun t =>
        approximatePValue fsqrt fexp t (idxs.length - k - 1))
      some ⟨coefficients, rSquared, standardErrors, tStats, pValues,
        idxs.length⟩

/-! ## `estimateCBAMInteractionModel` (lines 401-468) -/

/-- The aligned columns of `alignDataWithCBAM` (lines 473-506). -/
structure AlignedCBAM where
  y : List ℚ
  x1 : List ℚ
  x2 : List ℚ
  x3 : List ℚ
deriving DecidableEq

/-- `alignDataWithCBAM`. -/
def alignDataWithCBAM (data : List PanelRow) (includeInteraction : Bool) :
    AlignedCBAM :=
  let rows := data.filterMap (fun d =>
    match d.logImport, d.etsPrice, d.logIndustry with
    | some li, some ep, some lind =>
        if 0 < ep then
          let cbam := d.cbamDummy.getD 0
          if includeInteraction then some (li, ep, ep * cbam, lind)
          else some (li, ep, lind, cbam)
        else none
    | _, _, _ => none)
  ⟨rows.map (·.1), rows.map (·.2.1), rows.map (·.2.2.1), rows.map (·.2.2.2)⟩

/-- `estimateCBAMInteractionModel` return value (absent JS object keys are
defaults). -/
structure CBAMModelResult where
  feasible : Bool
  reason : String := ""
  model : String := ""
  frequency : String := ""
  n : Option ℕ := none
  preCBAM : ℕ := 0
  postCBAM : ℕ := 0
  intercept : Option JNum := none
  carbonPriceCoeff : Option JNum := none
  carbonPriceSE : Option JNum := none
  carbonPriceTStat : Option JNum := none
  carbonPricePValue : Option JNum := none
  cbamInteractionCoeff : Option JNum := none
  cbamInteractionSE : Option JNum := none
  cbamInteractionTStat : Option JNum := none
  cbamInteractionPValue : Option JNum := none
  activityCoeff : Option JNum := none
  activitySE : Option JNum := none
  activityTStat : Option JNum := none
  activityPValue : Option JNum := none
  rSquared : Option JNum := none
deriving DecidableEq

/-- `estimateCBAMInteractionModel`: pre/post-window gate, then interaction
OLS. -/
def estimateCBAMInteractionModel (fsqrt fexp : ℚ → ℚ)
    (mergedData : List PanelRow) (frequency : String) : CBAMModelResult :=
  let pre := preCBAMCount mergedData
  let post := postCBAMCount mergedData
  if pre < 10 ∨ post < 5 then
    { feasible := false
      reason := "Insufficient CBAM period coverage: " ++ toString pre ++
        " pre-CBAM observations (≥10 required), " ++ toString post ++
        " post-CBAM observations (≥5 required)"
      preCBAM := pre
      postCBAM := post }
  else
    let aligned := alignDataWithCBAM mergedData true
    if aligned.y.length < 20 then
      { feasible := false
        reason := "Insufficient observations (N=" ++
          toString aligned.y.length ++ " < 20 required for OLS)"
        n := some aligned.y.length
        preCBAM := pre
        postCBAM := post }
    else
      match multipleOLS fsqrt fexp (aligned.y.map some)
          [aligned.x1.map some, aligned.x2.map some, aligned.x3.map some] with
      | none =>
          { feasible := false
            reason := "Regression estimation failed"
            n := some aligned.y.length
            preCBAM := pre
            postCBAM := post }
      | some result =>
          { feasible := true
            model := "CBAM Interaction"
            frequency := frequency
            intercept := some (result.coefficients.getD 0 JNum.nan)
            carbonPriceCoeff := some (result.coefficients.getD 1 JNum.nan)
            carbonPriceSE := some (result.standardErrors.getD 1 JNum.nan)
            carbonPriceTStat := some (result.tStats.getD 1 JNum.nan)
            carbonPricePValue := some (result.pValues.getD 1 JNum.nan)
            cbamInteractionCoeff := some (result.coefficients.getD 2 JNum.nan)
            cbamInteractionSE := some (result.standardErrors.getD 2 JNum.nan)
            cbamInteractionTStat := some (result.tStats.getD 2 JNum.nan)
            cbamInteractionPValue := some (result.pValues.getD 2 JNum.nan)
            activityCoeff := some (result.coefficients.getD 3 JNum.nan)
            activitySE := some (result.standardErrors.getD 3 JNum.nan)
            activityTStat := some (result.tStats.getD 3 JNum.nan)
            activityPValue := some (result.pValues.getD 3 JNum.nan)
            rSquared := some result.rSquared
            n := some result.n
            preCBAM := pre
            postCBAM := post }

/-- The import-quantity field of row `i` of a panel (statement
abbreviation). -/
def importQtyAt (P : List PanelRow) (i : ℕ) : Option ℚ :=
  (P.getD i default).importQuantity_tons

/-! ## Concrete fixtures used by witness theorems -/

/-- A fully-populated overlapping panel row (all six required fields). -/
def fullRow2020 : PanelRow :=
  { date := 2020 * 12, importQuantity_tons := some 2, etsPrice := some 3,
    industryIndex := some 4, logImport := some 1, logETS := some 1,
    logIndustry := some 1 }

/-- A panel row with no observations. -/
def emptyRow2020 : PanelRow := { date := 2020 * 12 + 1 }

/-- 8 complete pre-CBAM rows and 3 complete post-CBAM rows (below the 10/5
interaction thresholds). -/
def smallCBAMPanel : List PanelRow :=
  (List.range 8).map (fun i =>
    { date := 2022 * 12 + i, importQuantity_tons := some 10,
      etsPrice := some 5 }) ++
  (List.range 3).map (fun i =>
    { date := 2023 * 12 + i, importQuantity_tons := some 20,
      etsPrice := some 50 })

/-- Three months of a single year with flow values `[100, 200, 300]` and
level values `[10, 20, 30]`. -/
def threeMonthPanel : List PanelRow :=
  [{ date := 2020 * 12, importQuantity_tons := some 100, etsPrice := some 10 },
    { date := 2020 * 12 + 1, importQuantity_tons := some 200,
      etsPrice := some 20 },
    { date := 2020 * 12 + 2, importQuantity_tons := some 300,
      etsPrice := some 30 }]

/-! ## Sorting lemmas -/

theorem insertSorted_perm {α β : Type} [LinearOrder β] (key : α → β) (a : α)
    (l : List α) : List.Perm (insertSorted key a l) (a :: l) := by
  induction l with
  | nil => simp [insertSorted]
  | cons b t ih =>
      by_cases h : key a ≤ key b
      · simp [insertSorted, h]
      · simp only [insertSorted, if_neg h]
        exact (ih.cons b).trans (List.Perm.swap a b t)

theorem sortByKey_perm {α β : Type} [LinearOrder β] (key : α → β)
    (l : List α) : List.Perm (sortByKey key l) l := by
  induction l with
  | nil => simp [sortByKey]
  | cons a t ih =>
      exact (insertSorted_perm key a (sortByKey key t)).trans (ih.cons a)

theorem insertSorted_sorted {α β : Type} [LinearOrder β] (key : α → β) (a : α)
    (l : List α) (h : l.Pairwise (fun x y => key x ≤ key y)) :
    (insertSorted key a l).Pairwise (fun x y => key x ≤ key y) := by
  induction l with
  | nil => simp [insertSorted]
  | cons b t ih =>
      rcases List.pairwise_cons.mp h with ⟨hb, ht⟩
      by_cases hab : key a ≤ key b
      · simp only [insertSorted, if_pos hab]
        refine List.pairwise_cons.mpr ⟨?_, h⟩
        intro x hx
        rcases List.mem_cons.mp hx with rfl | hx
        · exact hab
        · exact le_trans hab (hb x hx)
      · simp only [insertSorted, if_neg hab]
        refine List.pairwise_cons.mpr ⟨?_, ih ht⟩
        intro x hx
        have hx' := (insertSorted_perm key a t).mem_iff.mp hx
        rcases List.mem_cons.mp hx' with rfl | hx'
        · exact le_of_lt (lt_of_not_le hab)
        · exact hb x hx'

theorem sortByKey_sorted {α β : Type} [LinearOrder β] (key : α → β)
    (l : List α) : (sortByKey key l).Pairwise (fun x y => key x ≤ key y) := by
  induction l with
  | nil => simp [sortByKey]
  | cons a t ih => exact insertSorted_sorted key a _ ih

theorem sortByKey_eq_self {α β : Type} [LinearOrder β] (key : α → β)
    (l : List α) (h : l.Pairwise (fun x y => key x ≤ key y)) :
    sortByKey key l = l := by
  induction l with
  | nil => rfl
  | cons a t ih =>
      rcases List.pairwise_cons.mp h with ⟨ha, ht⟩
      rw [sortByKey, ih ht]
      cases t with
      | nil => rfl
      | cons b t' =>
          simp [insertSorted, ha b (List.mem_cons_self b t')]

/-! ## Lag-length gate lemmas -/

theorem lagSearch_closed (n : ℕ) : ∀ (fuel k : ℕ), 0 < k →
    lagSearch n fuel k (k - 1) =
      if n < k + 12 then k - 1 else min (n - 12) (k - 1 + fuel) := by
  intro fuel
  induction fuel with
  | zero =>
      intro k hk
      by_cases h : n < k + 12
      · rw [lagSearch, if_pos h]
      · rw [lagSearch, if_neg h, Nat.add_zero, Nat.min_eq_right (by omega)]
  | succ fuel ih =>
      intro k hk
      by_cases h : 10 + (k + 1) + 1 ≤ n
      · rw [lagSearch, if_pos h]
        have h2 := ih (k + 1) (by omega)
        rw [Nat.add_sub_cancel] at h2
        rw [h2]
        by_cases h3 : n < k + 1 + 12
        · rw [if_pos h3, if_neg (by omega)]
          have h4 : n - 12 = k := by omega
          rw [h4, Nat.min_eq_left (by omega)]
        · rw [if_neg h3, if_neg (by omega)]
          congr 1
          omega
      · rw [lagSearch, if_neg h, if_pos (by omega)]

theorem lagSearch_12 (n : ℕ) :
    lagSearch n 12 1 0 = if n < 13 then 0 else min (n - 12) 12 :=
  lagSearch_closed n 12 1 (by omega)

theorem dfll_monthly_eq (n : ℕ) (h : 20 ≤ n) :
    (determineFeasibleLagLength n "monthly" 3).maxLag =
        min (n - 12) (if n < 50 then 3 else if n < 100 then 6 else 12) ∧
      (determineFeasibleLagLength n "monthly" 3).feasible = true := by
  have h1 : ¬ n < 20 := by omega
  have h2 : ¬ n < 10 + 3 + 3 := by omega
  have h3 : ¬ n < 13 := by omega
  have hfreq : (("monthly" : String) == "annual") = false := by rfl
  simp only [determineFeasibleLagLength, if_neg h1, hfreq, Bool.false_eq_true,
    if_false, if_neg h2, lagSearch_12, if_neg h3]
  constructor
  · by_cases h50 : n < 50 <;> by_cases h100 : n < 100 <;>
      simp [h50, h100]
  · simp only [decide_eq_true_eq]
    by_cases h50 : n < 50 <;> by_cases h100 : n < 100 <;>
      simp [h50, h100] <;> omega

theorem dfll_monthly_infeasible (n : ℕ) (h : n < 20) :
    (determineFeasibleLagLength n "monthly" 3).feasible = false := by
  rw [determineFeasibleLagLength, if_pos h]

theorem dfll_annual_maxLag_le_one (m : ℕ) :
    (determineFeasibleLagLength m "annual" 3).maxLag ≤ 1 := by
  by_cases h : m < 20
  · rw [determineFeasibleLagLength, if_pos h]
    decide
  · have hfreq : (("annual" : String) == "annual") = true := by rfl
    rw [determineFeasibleLagLength, if_neg h, if_pos hfreq]
    by_cases h2 : 10 + 3 + 1 ≤ m <;> simp [h2]

theorem dfll_feasible_iff_maxLag_pos (m : ℕ) (freq : String) (mp : ℕ) :
    ((determineFeasibleLagLength m freq mp).feasible = false ↔
      (determineFeasibleLagLength m freq mp).maxLag = 0) := by
  by_cases h1 : m < 20
  · rw [determineFeasibleLagLength, if_pos h1]
    simp
  · rw [determineFeasibleLagLength, if_neg h1]
    by_cases h2 : (freq == "annual") = true
    · rw [if_pos h2]
      simp only [decide_eq_false_iff_not]
      omega
    · rw [if_neg h2]
      by_cases h3 : m < 10 + mp + 3
      · rw [if_pos h3]
        simp
      · rw [if_neg h3]
        simp only [decide_eq_false_iff_not]
        omega

/-- C2: for monthly frequency the minimum-sample gate is exactly `n = 20`:
`determineFeasibleLagLength(n, 'monthly')` is infeasible for every `n < 20`
and feasible for every `n ≥ 20`. -/
theorem c2_minimum_sample_boundary (n : ℕ) :
    (n < 20 → (determineFeasibleLagLength n "monthly" 3).feasible = false) ∧
      (20 ≤ n → (determineFeasibleLagLength n "monthly" 3).feasible = true) :=
  ⟨fun h => dfll_monthly_infeasible n h, fun h => (dfll_monthly_eq n h).2⟩

/-- C2 witness: the boundary instances `n = 19` and `n = 20`. -/
theorem c2_minimum_sample_boundary_witness :
    (determineFeasibleLagLength 19 "monthly" 3).feasible = false ∧
      (determineFeasibleLagLength 20 "monthly" 3).feasible = true :=
  ⟨(c2_minimum_sample_boundary 19).1 (by omega),
    (c2_minimum_sample_boundary 20).2 (by omega)⟩

/-- C3 counterexample: at `n = 100` (monthly) the claim's "largest `k` with
`n ≥ 10 + (k+1) + 1`, with no cap beyond 3/6" would give `k = 88`
(indeed `100 ≥ 10 + (88+1) + 1`), but the code returns `maxLag = 12`: the
search loop `for (k = 1; k <= 12; ...)` imposes a further cap of 12. -/
theorem c3_lag_cap_counterexample :
    (determineFeasibleLagLength 100 "monthly" 3).maxLag = 12 ∧
      10 + (88 + 1) + 1 ≤ 100 ∧ (12 : ℕ) ≠ 88 := by decide

/-- C3 (amended): for `n ≥ 20` monthly, `maxLag` is the largest `k` with
`n ≥ 10 + (k+1) + 1` capped at 12 by the search loop (that is,
`min (n-12) 12`), and further capped to 3 when `n < 50` and to 6 when
`n < 100`; annual frequency caps the lag at 1; and whenever the gate reports
infeasible the returned lag is zero. -/
theorem c3_lag_length_rule (n : ℕ) (h : 20 ≤ n) :
    ((determineFeasibleLagLength n "monthly" 3).maxLag =
        min (n - 12) (if n < 50 then 3 else if n < 100 then 6 else 12)) ∧
      (∀ m : ℕ, (determineFeasibleLagLength m "annual" 3).maxLag ≤ 1) ∧
      (∀ (m : ℕ) (freq : String),
        (determineFeasibleLagLength m freq 3).feasible = false ↔
          (determineFeasibleLagLength m freq 3).maxLag = 0) :=
  ⟨(dfll_monthly_eq n h).1, dfll_annual_maxLag_le_one,
    fun m freq => dfll_feasible_iff_maxLag_pos m freq 3⟩

/-- C3 witness: the amended rule instantiated at `n = 100`. -/
theorem c3_lag_length_rule_witness :
    (20 ≤ 100) ∧
      (determineFeasibleLagLength 100 "monthly" 3).maxLag =
        min (100 - 12) (if 100 < 50 then 3 else if 100 < 100 then 6 else 12) :=
  ⟨by omega, (c3_lag_length_rule 100 (by omega)).1⟩

/-! ## Singular linear systems (C1) -/

theorem length_foldl_set (g : List JNum → ℕ → JNum) :
    ∀ (l : List ℕ) (x : List JNum),
      (l.foldl (fun x i => x.set i (g x i)) x).length = x.length := by
  intro l
  induction l with
  | nil => intro x; rfl
  | cons a t ih =>
      intro x
      rw [List.foldl_cons, ih, List.length_set]

/-- `solveLinearSystem` is total: it always returns a coefficient vector of
the system's dimension, never a failure value (in JS the returned array is
always truthy, so the callers' `if (!coefficients)` guards can never fire). -/
theorem solveLinearSystem_length (A : List (List JNum)) (b : List JNum) :
    (solveLinearSystem A b).length = A.length := by
  simp only [solveLinearSystem]
  rw [length_foldl_set, List.length_replicate]

/-- C1: the code does NOT fail on a zero pivot.  On the singular system
`[[3,3],[3,3]] x = [6,6]` (the normal equations `XtX β = Xty` that
`multipleOLS` builds for the collinear regression `y = [1,2,3]` on the
constant regressor `x = [1,1,1]`), `solveLinearSystem` divides by the zero
pivot and returns the numeric vector `[NaN, NaN]`; `multipleOLS` treats that
truthy array as success and returns a non-null result with NaN coefficients
(for any model of `Math.sqrt`/`Math.exp`), so the caller never sees a
failure value; and `solveLinearSystem` always returns a vector, never a
failure marker. -/
theorem c1_singular_pivot_returns_nan :
    (solveLinearSystem [[JNum.num 3, JNum.num 3], [JNum.num 3, JNum.num 3]]
        [JNum.num 6, JNum.num 6] = [JNum.nan, JNum.nan]) ∧
      (∀ fsqrt fexp : ℚ → ℚ,
        (multipleOLS fsqrt fexp [some 1, some 2, some 3]
            [[some 1, some 1, some 1]]).map (·.coefficients) =
          some [JNum.nan, JNum.nan]) ∧
      (∀ (A : List (List JNum)) (b : List JNum),
        (solveLinearSystem A b).length = A.length) :=
  ⟨by with_unfolding_all decide,
    fun fsqrt fexp => by with_unfolding_all rfl,
    solveLinearSystem_length⟩

/-! ## Merged-panel structure lemmas (C4, C5, C8) -/

theorem jsNumOrNull_ne_some_zero (o : Option ℚ) : jsNumOrNull o ≠ some 0 := by
  match o with
  | none => simp [jsNumOrNull]
  | some v =>
      by_cases h : v = 0 <;> simp [jsNumOrNull, h]

theorem mem_mergeDatasets (imports : List ImportTotalsRow) (ets : List EtsRow)
    (industry : List IndustryRow) (r : PanelRow)
    (h : r ∈ mergeDatasets imports ets industry) :
    ∃ p, r = mergedRowFor imports ets industry p := by
  simp only [mergeDatasets] at h
  have h' := (sortByKey_perm (fun r : PanelRow => r.date) _).mem_iff.mp h
  rcases List.mem_filterMap.mp h' with ⟨p, _, hfp⟩
  refine ⟨p, ?_⟩
  by_cases hc : imports.find? (fun rr => rr.yearMonth == p) = none ∧
      ets.find? (fun rr => rr.yearMonth == p) = none ∧
      industry.find? (fun rr => rr.yearMonth == p) = none
  · rw [if_pos hc] at hfp
    exact absurd hfp (by simp)
  · rw [if_neg hc] at hfp
    exact (Option.some_inj.mp hfp).symm

theorem mergeDatasets_importQuantity_ne_zero (imports : List ImportTotalsRow)
    (ets : List EtsRow) (industry : List IndustryRow) (r : PanelRow)
    (h : r ∈ mergeDatasets imports ets industry) :
    r.importQuantity_tons ≠ some 0 := by
  rcases mem_mergeDatasets imports ets industry r h with ⟨p, rfl⟩
  exact jsNumOrNull_ne_some_zero _

theorem find?_eq_none_of_not_mem_map {α : Type} (key : α → ℕ) (l : List α)
    (p : ℕ) (h : p ∉ l.map key) : l.find? (fun r => key r == p) = none := by
  apply List.find?_eq_none.mpr
  intro x hx
  simp only [beq_iff_eq]
  intro heq
  exact h (heq ▸ List.mem_map_of_mem key hx)

/-- C4 (as a code bug): the `|| null` coercion in `mergeDatasets` maps a
REPORTED zero to the missing marker.  Concretely, an import-totals row for
period 600 with `totalQuantity_tons = 0` and `totalValue_eur = 5` merges to
a panel row whose import quantity is `null`, not `0`.  The other two parts
of the claim do hold: a period absent from the imports series yields a
`null` import quantity, and a missing observation is never turned into
`some 0`. -/
theorem c4_zero_versus_missing :
    ((mergeDatasets [⟨600, 600, 0, 5, 0⟩] [] []).map
        (fun r => (r.yearMonth, r.importQuantity_tons, r.importValue_eur)) =
      [(600, none, some 5)]) ∧
      (∀ (imports : List ImportTotalsRow) (ets : List EtsRow)
          (industry : List IndustryRow) (r : PanelRow),
        r ∈ mergeDatasets imports ets industry →
        r.yearMonth ∉ imports.map ImportTotalsRow.yearMonth →
        r.importQuantity_tons = none) ∧
      (∀ (imports : List ImportTotalsRow) (ets : List EtsRow)
          (industry : List IndustryRow) (r : PanelRow),
        r ∈ mergeDatasets imports ets industry →
        r.importQuantity_tons ≠ some 0) := by
  refine ⟨by with_unfolding_all decide, ?_, mergeDatasets_importQuantity_ne_zero⟩
  intro imports ets industry r hr habs
  rcases mem_mergeDatasets imports ets industry r hr with ⟨p, rfl⟩
  have hym : (mergedRowFor imports ets industry p).yearMonth = p := rfl
  rw [hym] at habs
  have hnone : imports.find? (fun rr => rr.yearMonth == p) = none :=
    find?_eq_none_of_not_mem_map ImportTotalsRow.yearMonth imports p habs
  show jsNumOrNull ((imports.find? (fun rr => rr.yearMonth == p)).map
    (·.totalQuantity_tons)) = none
  rw [hnone]
  rfl

/-- C4 witness: a panel row for a period carried only by the ETS series has
`null` import quantity. -/
theorem c4_zero_versus_missing_witness :
    ((mergeDatasets [] [⟨3, 3, 7⟩] []).getD 0 default ∈
        mergeDatasets [] [⟨3, 3, 7⟩] []) ∧
      (((mergeDatasets [] [⟨3, 3, 7⟩] []).getD 0 default).yearMonth ∉
        ([] : List ImportTotalsRow).map ImportTotalsRow.yearMonth) ∧
      ((mergeDatasets [] [⟨3, 3, 7⟩] []).getD 0 default).importQuantity_tons =
        none :=
  ⟨by with_unfolding_all decide, by with_unfolding_all decide,
    c4_zero_versus_missing.2.1 [] [⟨3, 3, 7⟩] [] _
      (by with_unfolding_all decide) (by with_unfolding_all decide)⟩

/-! ## Zero-variance regressor in `simpleOLS` (C10) -/

theorem sum_snd_of_const {l : List (ℚ × ℚ)} {c : ℚ} (h : ∀ p ∈ l, p.2 = c) :
    (l.map (fun p => p.2)).sum = l.length * c := by
  induction l with
  | nil => simp
  | cons a t ih =>
      have ha := h a (List.mem_cons_self a t)
      have ht := ih (fun p hp => h p (List.mem_cons_of_mem a hp))
      simp [ha, ht]
      ring

theorem sum_sq_snd_of_const {l : List (ℚ × ℚ)} {c : ℚ} (h : ∀ p ∈ l, p.2 = c) :
    (l.map (fun p => p.2 * p.2)).sum = l.length * (c * c) := by
  induction l with
  | nil => simp
  | cons a t ih =>
      have ha := h a (List.mem_cons_self a t)
      have ht := ih (fun p hp => h p (List.mem_cons_of_mem a hp))
      simp [ha, ht]
      ring

theorem sum_snd_mul_fst_of_const {l : List (ℚ × ℚ)} {c : ℚ}
    (h : ∀ p ∈ l, p.2 = c) :
    (l.map (fun p => p.2 * p.1)).sum = c * (l.map (fun p => p.1)).sum := by
  induction l with
  | nil => simp
  | cons a t ih =>
      have ha := h a (List.mem_cons_self a t)
      have ht := ih (fun p hp => h p (List.mem_cons_of_mem a hp))
      simp [ha, ht]
      ring

theorem jdivQ_eq_nan_of_eq_zero {a b : ℚ} (ha : a = 0) (hb : b = 0) :
    jdivQ a b = JNum.nan := by
  subst ha
  subst hb
  simp [jdivQ]

theorem simpleOLS_some (fsqrt fexp : ℚ → ℚ) (y x : List (Option ℚ))
    (h : ¬ (validPairs y x).length < 2) :
    ∃ r, simpleOLS fsqrt fexp y x = some r ∧
      r.slope = jdivQ
        (((validPairs y x).map (fun p => p.2 * p.1)).sum -
          ((validPairs y x).length : ℚ) *
            ((((validPairs y x).map (fun p => p.2)).sum :ℚ) / ((validPairs y x).length : ℚ)) *
            ((((validPairs y x).map (fun p => p.1)).sum :ℚ) / ((validPairs y x).length : ℚ)))
        (((validPairs y x).map (fun p => p.2 * p.2)).sum -
          ((validPairs y x).length : ℚ) *
            ((((validPairs y x).map (fun p => p.2)).sum :ℚ) / ((validPairs y x).length : ℚ)) *
            ((((validPairs y x).map (fun p => p.2)).sum :ℚ) / ((validPairs y x).length : ℚ))) := by
  simp only [simpleOLS, if_neg h]
  exact ⟨_, rfl, rfl⟩

/-- C10: whenever `simpleOLS` has at least 2 valid pairs whose x-values are
all equal (zero variance in x), it does NOT return null: the unguarded slope
division is `0/0`, so it returns a result object whose slope is `NaN`. -/
theorem c10_zero_variance_slope_nan (fsqrt fexp : ℚ → ℚ)
    (y x : List (Option ℚ)) (c : ℚ)
    (h2 : 2 ≤ (validPairs y x).length)
    (hc : ∀ p ∈ validPairs y x, p.2 = c) :
    ∃ r, simpleOLS fsqrt fexp y x = some r ∧ r.slope = JNum.nan := by
  obtain ⟨r, hr, hs⟩ := simpleOLS_some fsqrt fexp y x (by omega)
  refine ⟨r, hr, ?_⟩
  rw [hs, sum_snd_of_const hc, sum_sq_snd_of_const hc,
    sum_snd_mul_fst_of_const hc]
  have hm : ((validPairs y x).length : ℚ) ≠ 0 :=
    Nat.cast_ne_zero.mpr (by omega)
  apply jdivQ_eq_nan_of_eq_zero
  · field_simp
    ring
  · field_simp
    ring

/-- C10 witness: `y = [1, 2]`, `x = [5, 5]`. -/
theorem c10_zero_variance_slope_nan_witness :
    2 ≤ (validPairs [some 1, some 2] [some 5, some 5]).length ∧
      (∀ p ∈ validPairs [some 1, some 2] [some 5, some 5], p.2 = (5 : ℚ)) ∧
      ∃ r, simpleOLS id id [some 1, some 2] [some 5, some 5] = some r ∧
        r.slope = JNum.nan :=
  ⟨by with_unfolding_all decide, by with_unfolding_all decide,
    c10_zero_variance_slope_nan id id _ _ 5 (by with_unfolding_all decide)
      (by with_unfolding_all decide)⟩

/-! ## CBAM interaction gate and descriptive fallback (C7) -/

theorem append_ne_empty_left (s t : String) (h : s.length ≠ 0) :
    s ++ t ≠ "" := by
  intro h0
  have hlen := congrArg String.length h0
  rw [String.length_append] at hlen
  have hz : ("" : String).length = 0 := rfl
  omega

theorem calculateCBAMDescriptive_isSome_iff (data : List PanelRow) :
    ((calculateCBAMDescriptive data).isSome = true ↔
      (data.filter (fun d => yearOfDate d.date < 2023 &&
          d.importQuantity_tons.isSome && d.etsPrice.isSome) ≠ [] ∧
        data.filter (fun d => 2023 ≤ yearOfDate d.date &&
          yearOfDate d.date ≤ 2025 && d.importQuantity_tons.isSome &&
          d.etsPrice.isSome) ≠ [])) := by
  by_cases hd : data = []
  · subst hd
    simp [calculateCBAMDescriptive]
  · simp only [calculateCBAMDescriptive, if_neg hd]
    by_cases hpp : data.filter (fun d => yearOfDate d.date < 2023 &&
        d.importQuantity_tons.isSome && d.etsPrice.isSome) = [] ∨
        data.filter (fun d => 2023 ≤ yearOfDate d.date &&
          yearOfDate d.date ≤ 2025 && d.importQuantity_tons.isSome &&
          d.etsPrice.isSome) = []
    · rw [if_pos hpp]
      simp only [Option.isSome_none, Bool.false_eq_true, false_iff]
      tauto
    · rw [if_neg hpp]
      simp only [Option.isSome_some, true_iff]
      tauto

/-- C7: with fewer than 10 pre-intervention or fewer than 5 post-window
observations, `estimateCBAMInteractionModel` returns `feasible = false` with
a non-empty reason (and, being a total function, never throws), while the
descriptive pre/post comparison of `calculateCBAMDescriptive` is computable
from the same panel: it returns a value exactly when each window has at
least one complete (imports and price present) observation. -/
theorem c7_interaction_gate_fallback (fsqrt fexp : ℚ → ℚ)
    (data : List PanelRow) (freq : String)
    (h : preCBAMCount data < 10 ∨ postCBAMCount data < 5) :
    (estimateCBAMInteractionModel fsqrt fexp data freq).feasible = false ∧
      (estimateCBAMInteractionModel fsqrt fexp data freq).reason ≠ "" ∧
      ((calculateCBAMDescriptive data).isSome = true ↔
        (data.filter (fun d => yearOfDate d.date < 2023 &&
            d.importQuantity_tons.isSome && d.etsPrice.isSome) ≠ [] ∧
          data.filter (fun d => 2023 ≤ yearOfDate d.date &&
            yearOfDate d.date ≤ 2025 && d.importQuantity_tons.isSome &&
            d.etsPrice.isSome) ≠ [])) := by
  refine ⟨?_, ?_, calculateCBAMDescriptive_isSome_iff data⟩
  · simp only [estimateCBAMInteractionModel, if_pos h]
  · simp only [estimateCBAMInteractionModel, if_pos h]
    intro h0
    have hlen := congrArg String.length h0
    rw [String.length_append, String.length_append, String.length_append,
      String.length_append] at hlen
    have h1 : ("Insufficient CBAM period coverage: " : String).length = 35 :=
      rfl
    have hz : ("" : String).length = 0 := rfl
    omega

/-- C7 witness: 8 complete pre-window and 3 complete post-window rows (below
the 10/5 thresholds): the estimator reports infeasible and the descriptive
comparison exists. -/
theorem c7_interaction_gate_fallback_witness :
    (preCBAMCount smallCBAMPanel < 10 ∨ postCBAMCount smallCBAMPanel < 5) ∧
      (estimateCBAMInteractionModel id id smallCBAMPanel
        "monthly").feasible = false ∧
      (calculateCBAMDescriptive smallCBAMPanel).isSome = true :=
  ⟨by with_unfolding_all decide,
    (c7_interaction_gate_fallback id id smallCBAMPanel "monthly"
      (by with_unfolding_all decide)).1,
    (c7_interaction_gate_fallback id id smallCBAMPanel "monthly"
        (by with_unfolding_all decide)).2.2.mpr
      ⟨by with_unfolding_all decide, by with_unfolding_all decide⟩⟩

/-! ## Dataset preparation (C9) -/

theorem detectOverlappingPeriod_eq (panel : List PanelRow)
    (hp : panel ≠ []) (hv : panel.filter hasAllRequired ≠ []) :
    detectOverlappingPeriod panel =
      some ⟨((panel.filter hasAllRequired).map (fun r => r.date)).min?.getD 0,
        ((panel.filter hasAllRequired).map (fun r => r.date)).max?.getD 0,
        (panel.filter hasAllRequired).length, panel.filter hasAllRequired⟩ := by
  simp only [detectOverlappingPeriod, if_neg hp, if_neg hv]

/-- C9: at monthly frequency `prepareDataset` returns exactly the rows in
which every one of the six required fields is non-null, and when the count
of such rows is between 1 and 19 the annual aggregation is applied only to
those fully-overlapping rows, not to the whole panel. -/
theorem c9_prepare_dataset_overlap_only (jlog : ℚ → ℚ)
    (panel : List PanelRow) :
    (20 ≤ (panel.filter hasAllRequired).length →
        (prepareDataset jlog panel).frequency = "monthly" ∧
        (prepareDataset jlog panel).data = panel.filter hasAllRequired) ∧
      (0 < (panel.filter hasAllRequired).length →
        (panel.filter hasAllRequired).length < 20 →
        (prepareDataset jlog panel).frequency = "annual" ∧
        (prepareDataset jlog panel).data =
          aggregateToAnnual jlog (panel.filter hasAllRequired)) := by
  by_cases hp : panel = []
  · subst hp
    exact ⟨fun h => absurd h (by decide), fun h _ => absurd h (by decide)⟩
  · by_cases hv : panel.filter hasAllRequired = []
    · refine ⟨fun h => ?_, fun h _ => ?_⟩ <;> rw [hv] at h <;> simp at h
    · have hdet := detectOverlappingPeriod_eq panel hp hv
      constructor
      · intro h20
        simp only [prepareDataset, hdet, if_neg (by omega : ¬
            (panel.filter hasAllRequired).length = 0),
          if_neg (by omega : ¬ (panel.filter hasAllRequired).length < 20)]
        constructor <;> trivial
      · intro h1 h2
        simp only [prepareDataset, hdet, if_neg (by omega : ¬
            (panel.filter hasAllRequired).length = 0), if_pos h2]
        constructor <;> trivial

/-- C9 witness: a panel with exactly one fully-overlapping row goes through
the annual branch, aggregating only that row. -/
theorem c9_prepare_dataset_overlap_only_witness :
    (0 < ([fullRow2020, emptyRow2020].filter hasAllRequired).length) ∧
      (([fullRow2020, emptyRow2020].filter hasAllRequired).length < 20) ∧
      (prepareDataset id [fullRow2020, emptyRow2020]).frequency = "annual" ∧
      (prepareDataset id [fullRow2020, emptyRow2020]).data =
        aggregateToAnnual id
          ([fullRow2020, emptyRow2020].filter hasAllRequired) :=
  ⟨by with_unfolding_all decide, by with_unfolding_all decide,
    ((c9_prepare_dataset_overlap_only id _).2 (by with_unfolding_all decide)
      (by with_unfolding_all decide)).1,
    ((c9_prepare_dataset_overlap_only id _).2 (by with_unfolding_all decide)
      (by with_unfolding_all decide)).2⟩

/-! ## Annual aggregation (C6) -/

/-- C6: `aggregateToAnnual` groups rows by calendar year — the output has
exactly one row per year present in the input — and on that year's rows it
aggregates import quantity and import value by sum (flow variables,
presented as `null` when the sum is not positive) and carbon price and
activity index by arithmetic mean over the non-null monthly values (level
variables). -/
theorem c6_annual_aggregation (jlog : ℚ → ℚ) (rows : List PanelRow) (y : ℕ)
    (hy : y ∈ rows.map (fun r => yearOfDate r.date)) :
    ∃ r, r ∈ aggregateToAnnual jlog rows ∧ r.year = some y ∧
      r.importQuantity_tons =
        (if 0 < ((rows.filter (fun rr => yearOfDate rr.date == y)).filterMap
              (·.importQuantity_tons)).sum then
          some ((rows.filter (fun rr => yearOfDate rr.date == y)).filterMap
            (·.importQuantity_tons)).sum
        else none) ∧
      r.importValue_eur =
        (if 0 < ((rows.filter (fun rr => yearOfDate rr.date == y)).filterMap
              (·.importValue_eur)).sum then
          some ((rows.filter (fun rr => yearOfDate rr.date == y)).filterMap
            (·.importValue_eur)).sum
        else none) ∧
      r.etsPrice =
        (if 0 < ((rows.filter (fun rr => yearOfDate rr.date == y)).filterMap
              (·.etsPrice)).length then
          some (((rows.filter (fun rr => yearOfDate rr.date == y)).filterMap
              (·.etsPrice)).sum /
            ((rows.filter (fun rr => yearOfDate rr.date == y)).filterMap
              (·.etsPrice)).length)
        else none) ∧
      r.industryIndex =
        (if 0 < ((rows.filter (fun rr => yearOfDate rr.date == y)).filterMap
              (·.industryIndex)).length then
          some (((rows.filter (fun rr => yearOfDate rr.date == y)).filterMap
              (·.industryIndex)).sum /
            ((rows.filter (fun rr => yearOfDate rr.date == y)).filterMap
              (·.industryIndex)).length)
        else none) ∧
      (∀ r' ∈ aggregateToAnnual jlog rows, r'.year = some y → r' = r) := by
  have hne : rows ≠ [] := by
    intro h
    subst h
    simp at hy
  refine ⟨annualRowFor jlog rows y, ?_, rfl, rfl, rfl, rfl, rfl, ?_⟩
  · simp only [aggregateToAnnual, if_neg hne]
    exact (sortByKey_perm (fun r : PanelRow => r.date) _).mem_iff.mpr
      (List.mem_map_of_mem _ (List.mem_dedup.mpr hy))
  · intro r' hr' hyr'
    simp only [aggregateToAnnual, if_neg hne] at hr'
    have hr'' := (sortByKey_perm (fun r : PanelRow => r.date) _).mem_iff.mp hr'
    rcases List.mem_map.mp hr'' with ⟨y', _, rfl⟩
    have : some y' = some y := hyr'
    rw [Option.some_inj.mp this]

/-- C6 witness: a single year with monthly flows `[100, 200, 300]` and
monthly levels `[10, 20, 30]` aggregates to the annual total `600` and the
annual mean `20`. -/
theorem c6_annual_aggregation_witness :
    (2020 ∈ threeMonthPanel.map (fun r => yearOfDate r.date)) ∧
      ((aggregateToAnnual id threeMonthPanel).map
          (fun r => (r.year, r.importQuantity_tons, r.etsPrice)) =
        [(some 2020, some 600, some 20)]) ∧
      (∃ r, r ∈ aggregateToAnnual id threeMonthPanel ∧ r.year = some 2020 ∧
        r.importQuantity_tons =
          (if 0 < ((threeMonthPanel.filter
                (fun rr => yearOfDate rr.date == 2020)).filterMap
                (·.importQuantity_tons)).sum then
            some ((threeMonthPanel.filter
              (fun rr => yearOfDate rr.date == 2020)).filterMap
              (·.importQuantity_tons)).sum
          else none) ∧
        r.importValue_eur =
          (if 0 < ((threeMonthPanel.filter
                (fun rr => yearOfDate rr.date == 2020)).filterMap
                (·.importValue_eur)).sum then
            some ((threeMonthPanel.filter
              (fun rr => yearOfDate rr.date == 2020)).filterMap
              (·.importValue_eur)).sum
          else none) ∧
        r.etsPrice =
          (if 0 < ((threeMonthPanel.filter
                (fun rr => yearOfDate rr.date == 2020)).filterMap
                (·.etsPrice)).length then
            some (((threeMonthPanel.filter
                (fun rr => yearOfDate rr.date == 2020)).filterMap
                (·.etsPrice)).sum /
              ((threeMonthPanel.filter
                (fun rr => yearOfDate rr.date == 2020)).filterMap
                (·.etsPrice)).length)
          else none) ∧
        r.industryIndex =
          (if 0 < ((threeMonthPanel.filter
                (fun rr => yearOfDate rr.date == 2020)).filterMap
                (·.industryIndex)).length then
            some (((threeMonthPanel.filter
                (fun rr => yearOfDate rr.date == 2020)).filterMap
                (·.industryIndex)).sum /
              ((threeMonthPanel.filter
                (fun rr => yearOfDate rr.date == 2020)).filterMap
                (·.industryIndex)).length)
          else none) ∧
        (∀ r' ∈ aggregateToAnnual id threeMonthPanel, r'.year = some 2020 →
          r' = r)) :=
  ⟨by with_unfolding_all decide, by with_unfolding_all decide,
    c6_annual_aggregation id threeMonthPanel 2020
      (by with_unfolding_all decide)⟩

/-! ## Growth-rate semantics on merged panels (C5) -/

theorem calcDerived_getD (jlog : ℚ → ℚ) (P : List PanelRow) (t : ℕ)
    (ht : t < P.length) :
    (calculateDerivedIndicators jlog P).getD t default =
      derivedRow jlog P t := by
  unfold calculateDerivedIndicators
  rw [List.getD_eq_getElem?_getD, List.getElem?_map, List.getElem?_range ht]
  rfl

theorem derivedRow_importGrowth (jlog : ℚ → ℚ) (data : List PanelRow)
    (idx : ℕ) :
    (derivedRow jlog data idx).importGrowth =
      jsGrowth (if 0 < idx then some (data.getD (idx - 1) default) else none)
        (fun r => r.importQuantity_tons)
        ((data.getD idx default).importQuantity_tons) := rfl

theorem derivedRow_importGrowthYoY (jlog : ℚ → ℚ) (data : List PanelRow)
    (idx : ℕ) :
    (derivedRow jlog data idx).importGrowthYoY =
      jsGrowth (if 12 ≤ idx then some (data.getD (idx - 12) default) else none)
        (fun r => r.importQuantity_tons)
        ((data.getD idx default).importQuantity_tons) := rfl

theorem jsGrowth_none_cur (po : Option PanelRow)
    (f : PanelRow → Option ℚ) : jsGrowth po f none = none := by
  cases po with
  | none => rfl
  | some p => cases hp : f p <;> simp [jsGrowth, hp]

theorem getD_mem_of_lt {α : Type} [Inhabited α] (l : List α) (i : ℕ)
    (h : i < l.length) : l.getD i default ∈ l := by
  rw [List.getD_eq_getElem?_getD, List.getElem?_eq_getElem h]
  exact List.getElem_mem h

/-- C5: on a merged panel, month-over-month import growth at row `t` equals
`(v(t) - v(t-1)) / v(t-1) * 100` and is null exactly when `v(t)` or `v(t-1)`
is missing (including `t = 0`) or the denominator `v(t-1)` is zero;
year-over-year growth obeys the same rule with a `t-12` lookback; and a
variable that is null at `t` has null growth at `t` (so two consecutive
nulls give null growth in both periods, never 0). -/
theorem c5_growth_rule (jlog : ℚ → ℚ) (imports : List ImportTotalsRow)
    (ets : List EtsRow) (industry : List IndustryRow) (t : ℕ)
    (ht : t < (mergeDatasets imports ets industry).length) :
    ((((calculateDerivedIndicators jlog
          (mergeDatasets imports ets industry)).getD t
            default).importGrowth = none) ↔
        (t = 0 ∨ importQtyAt (mergeDatasets imports ets industry) t = none ∨
          (importQtyAt (mergeDatasets imports ets industry) (t - 1) = none) ∨
          (importQtyAt (mergeDatasets imports ets industry) (t - 1) =
            some 0))) ∧
      (∀ a b : ℚ, 0 < t →
        (importQtyAt (mergeDatasets imports ets industry) (t - 1) = some a) →
        (importQtyAt (mergeDatasets imports ets industry) t = some b) →
        a ≠ 0 →
        (((calculateDerivedIndicators jlog
          (mergeDatasets imports ets industry)).getD t
            default).importGrowth = some ((b - a) / a * 100))) ∧
      ((((calculateDerivedIndicators jlog
          (mergeDatasets imports ets industry)).getD t
            default).importGrowthYoY = none) ↔
        (t < 12 ∨ importQtyAt (mergeDatasets imports ets industry) t = none ∨
          (importQtyAt (mergeDatasets imports ets industry) (t - 12) = none) ∨
          (importQtyAt (mergeDatasets imports ets industry) (t - 12) =
            some 0))) ∧
      (∀ a b : ℚ, 12 ≤ t →
        (importQtyAt (mergeDatasets imports ets industry) (t - 12) = some a) →
        (importQtyAt (mergeDatasets imports ets industry) t = some b) →
        a ≠ 0 →
        (((calculateDerivedIndicators jlog
          (mergeDatasets imports ets industry)).getD t
            default).importGrowthYoY = some ((b - a) / a * 100))) ∧
      (importQtyAt (mergeDatasets imports ets industry) t = none →
        (((calculateDerivedIndicators jlog
          (mergeDatasets imports ets industry)).getD t
            default).importGrowth = none) ∧
        (((calculateDerivedIndicators jlog
          (mergeDatasets imports ets industry)).getD t
            default).importGrowthYoY = none)) := by
  have hnz : ∀ i, i < (mergeDatasets imports ets industry).length →
      ((mergeDatasets imports ets industry).getD i
        default).importQuantity_tons ≠ some 0 :=
    fun i hi => mergeDatasets_importQuantity_ne_zero imports ets industry _
      (getD_mem_of_lt _ i hi)
  simp only [importQtyAt]
  rw [calcDerived_getD jlog _ t ht, derivedRow_importGrowth,
    derivedRow_importGrowthYoY]
  refine ⟨?_, ?_, ?_, ?_, ?_⟩
  · by_cases h0 : 0 < t
    · rw [if_pos h0]
      rcases hprev : ((mergeDatasets imports ets industry).getD (t - 1)
          default).importQuantity_tons with _ | a <;>
        rcases hcur : ((mergeDatasets imports ets industry).getD t
          default).importQuantity_tons with _ | b
      · simp only [jsGrowth, hprev, hcur]
        simp
      · simp only [jsGrowth, hprev, hcur]
        simp
      · simp only [jsGrowth, hprev, hcur]
        simp
      · have hb : b ≠ 0 := fun hb0 => hnz t ht (by rw [hcur, hb0])
        by_cases ha : a = 0
        · simp only [jsGrowth, hprev, hcur]
          simp [ha]
        · have ht0 : ¬ t = 0 := by omega
          simp only [jsGrowth, hprev, hcur]
          simp [ha, hb, ht0]
    · rw [if_neg h0]
      have ht0 : t = 0 := by omega
      simp only [jsGrowth]
      simp [ht0]
  · intro a b h0 hprev hcur ha
    have hb : b ≠ 0 := fun hb0 => hnz t ht (by rw [hcur, hb0])
    rw [if_pos h0]
    simp only [jsGrowth, hprev, hcur]
    simp [ha, hb]
  · by_cases h0 : 12 ≤ t
    · rw [if_pos h0]
      rcases hprev : ((mergeDatasets imports ets industry).getD (t - 12)
          default).importQuantity_tons with _ | a <;>
        rcases hcur : ((mergeDatasets imports ets industry).getD t
          default).importQuantity_tons with _ | b
      · simp only [jsGrowth, hprev, hcur]
        simp
      · simp only [jsGrowth, hprev, hcur]
        simp
      · simp only [jsGrowth, hprev, hcur]
        simp
      · have hb : b ≠ 0 := fun hb0 => hnz t ht (by rw [hcur, hb0])
        by_cases ha : a = 0
        · simp only [jsGrowth, hprev, hcur]
          simp [ha]
        · have ht0 : ¬ t < 12 := by omega
          simp only [jsGrowth, hprev, hcur]
          simp [ha, hb, ht0]
    · rw [if_neg h0]
      have ht0 : t < 12 := by omega
      simp only [jsGrowth]
      simp [ht0]
  · intro a b h0 hprev hcur ha
    have hb : b ≠ 0 := fun hb0 => hnz t ht (by rw [hcur, hb0])
    rw [if_pos h0]
    simp only [jsGrowth, hprev, hcur]
    simp [ha, hb]
  · intro hcur
    rw [hcur]
    exact ⟨jsGrowth_none_cur _ _, jsGrowth_none_cur _ _⟩

/-- C5 witness: a two-row merged panel (an ETS-only row, then a row carrying
an import observation): growth at `t = 1` is null because `v(0)` is missing, and the
formula applies nowhere else. -/
theorem c5_growth_rule_witness :
    (1 < (mergeDatasets [⟨601, 601, 4, 8, 2⟩] [⟨600, 600, 7⟩] []).length) ∧
      ((((calculateDerivedIndicators id
          (mergeDatasets [⟨601, 601, 4, 8, 2⟩] [⟨600, 600, 7⟩] [])).getD 1
            default).importGrowth = none) ↔
        ((1 : ℕ) = 0 ∨
          (importQtyAt (mergeDatasets [⟨601, 601, 4, 8, 2⟩] [⟨600, 600, 7⟩] [])
            1 = none) ∨
          (importQtyAt (mergeDatasets [⟨601, 601, 4, 8, 2⟩] [⟨600, 600, 7⟩] [])
            (1 - 1) = none) ∨
          (importQtyAt (mergeDatasets [⟨601, 601, 4, 8, 2⟩] [⟨600, 600, 7⟩] [])
            (1 - 1) = some 0))) :=
  ⟨by with_unfolding_all decide,
    (c5_growth_rule id [⟨601, 601, 4, 8, 2⟩] [⟨600, 600, 7⟩] [] 1
      (by with_unfolding_all decide)).1⟩

/-! ## Merge alignment and ordering (C8) -/

theorem filterMap_eq_map_of_forall {α β : Type} (f : α → Option β)
    (g : α → β) : ∀ l : List α, (∀ a ∈ l, f a = some (g a)) →
    l.filterMap f = l.map g := by
  intro l
  induction l with
  | nil => intro _; rfl
  | cons a t ih =>
      intro h
      rw [List.filterMap_cons, h a (List.mem_cons_self a t), List.map_cons,
        ih (fun b hb => h b (List.mem_cons_of_mem a hb))]

theorem find?_key_ne_none {α : Type} (key : α → ℕ) (l : List α) (p : ℕ)
    (h : p ∈ l.map key) : l.find? (fun r => key r == p) ≠ none := by
  rcases List.mem_map.mp h with ⟨r, hr, rfl⟩
  have hs : (l.find? (fun r' => key r' == key r)).isSome :=
    List.find?_isSome.mpr ⟨r, hr, by simp⟩
  exact Option.isSome_iff_ne_none.mp hs

theorem mergeDatasets_eq (imports : List ImportTotalsRow) (ets : List EtsRow)
    (industry : List IndustryRow) :
    mergeDatasets imports ets industry =
      sortByKey (fun r : PanelRow => r.date)
        ((sortByKey id ((imports.map (fun r => r.yearMonth) ++
            ets.map (fun r => r.yearMonth) ++
            industry.map (fun r => r.yearMonth)).dedup)).map
          (mergedRowFor imports ets industry)) := by
  simp only [mergeDatasets]
  congr 1
  apply filterMap_eq_map_of_forall
  intro p hp
  have hp2 : p ∈ imports.map (fun r => r.yearMonth) ++
      ets.map (fun r => r.yearMonth) ++
      industry.map (fun r => r.yearMonth) :=
    List.mem_dedup.mp ((sortByKey_perm id _).mem_iff.mp hp)
  have hnotall : ¬ (imports.find? (fun r => r.yearMonth == p) = none ∧
      ets.find? (fun r => r.yearMonth == p) = none ∧
      industry.find? (fun r => r.yearMonth == p) = none) := by
    rcases List.mem_append.mp hp2 with h12 | h3
    · rcases List.mem_append.mp h12 with h1 | h2
      · exact fun hc => find?_key_ne_none _ imports p h1 hc.1
      · exact fun hc => find?_key_ne_none _ ets p h2 hc.2.1
    · exact fun hc => find?_key_ne_none _ industry p h3 hc.2.2
  rw [if_neg hnotall]

theorem mergedRowFor_date (dateOf : ℕ → ℕ) (imports : List ImportTotalsRow)
    (ets : List EtsRow) (industry : List IndustryRow)
    (hdi : ∀ r ∈ imports, r.date = dateOf r.yearMonth)
    (hde : ∀ r ∈ ets, r.date = dateOf r.yearMonth)
    (hdn : ∀ r ∈ industry, r.date = dateOf r.yearMonth) (p : ℕ)
    (hp : p ∈ imports.map (fun r => r.yearMonth) ∨
      p ∈ ets.map (fun r => r.yearMonth) ∨
      p ∈ industry.map (fun r => r.yearMonth)) :
    (mergedRowFor imports ets industry p).date = dateOf p := by
  show (((imports.find? (fun r => r.yearMonth == p)).map (fun r => r.date)).or
      (((ets.find? (fun r => r.yearMonth == p)).map (fun r => r.date)).or
        ((industry.find? (fun r => r.yearMonth == p)).map
          (fun r => r.date)))).getD 0 = dateOf p
  rcases hie : imports.find? (fun r => r.yearMonth == p) with _ | ri
  · rcases hee : ets.find? (fun r => r.yearMonth == p) with _ | re
    · rcases hne : industry.find? (fun r => r.yearMonth == p) with _ | rn
      · exfalso
        rcases hp with h | h | h
        · exact find?_key_ne_none _ imports p h hie
        · exact find?_key_ne_none _ ets p h hee
        · exact find?_key_ne_none _ industry p h hne
      · have hym : rn.yearMonth = p := by
          have := List.find?_some hne
          simpa using this
        have hmem := List.mem_of_find?_eq_some hne
        simp only [hie, hee, hne]
        simp [Option.or, hdn rn hmem, hym]
    · have hym : re.yearMonth = p := by
        have := List.find?_some hee
        simpa using this
      have hmem := List.mem_of_find?_eq_some hee
      simp only [hie, hee]
      simp [Option.or, hde re hmem, hym]
  · have hym : ri.yearMonth = p := by
      have := List.find?_some hie
      simpa using this
    have hmem := List.mem_of_find?_eq_some hie
    simp only [hie]
    simp [Option.or, hdi ri hmem, hym]

theorem pairwise_lt_of_pairwise_le_nodup (l : List ℕ)
    (hs : l.Pairwise (· ≤ ·)) (hn : l.Nodup) : l.Pairwise (· < ·) := by
  induction l with
  | nil => exact List.Pairwise.nil
  | cons a t ih =>
      rcases List.pairwise_cons.mp hs with ⟨ha, ht⟩
      rcases List.nodup_cons.mp hn with ⟨hna, hnt⟩
      exact List.pairwise_cons.mpr
        ⟨fun b hb => lt_of_le_of_ne (ha b hb) (fun heq => hna (heq ▸ hb)),
          ih ht hnt⟩

theorem mergeDatasets_map_yearMonth (dateOf : ℕ → ℕ)
    (hmono : StrictMono dateOf) (imports : List ImportTotalsRow)
    (ets : List EtsRow) (industry : List IndustryRow)
    (hdi : ∀ r ∈ imports, r.date = dateOf r.yearMonth)
    (hde : ∀ r ∈ ets, r.date = dateOf r.yearMonth)
    (hdn : ∀ r ∈ industry, r.date = dateOf r.yearMonth) :
    (mergeDatasets imports ets industry).map (fun r : PanelRow => r.yearMonth) =
      sortByKey id ((imports.map (fun r => r.yearMonth) ++
        ets.map (fun r => r.yearMonth) ++
        industry.map (fun r => r.yearMonth)).dedup) := by
  rw [mergeDatasets_eq]
  have hKsorted : (sortByKey id ((imports.map (fun r => r.yearMonth) ++
      ets.map (fun r => r.yearMonth) ++
      industry.map (fun r => r.yearMonth)).dedup)).Pairwise (· ≤ ·) :=
    sortByKey_sorted id _
  have hKnodup : (sortByKey id ((imports.map (fun r => r.yearMonth) ++
      ets.map (fun r => r.yearMonth) ++
      industry.map (fun r => r.yearMonth)).dedup)).Nodup :=
    ((sortByKey_perm id _).nodup_iff).mpr (List.nodup_dedup _)
  have hKlt := pairwise_lt_of_pairwise_le_nodup _ hKsorted hKnodup
  have hmemK : ∀ p ∈ sortByKey id ((imports.map (fun r => r.yearMonth) ++
      ets.map (fun r => r.yearMonth) ++
      industry.map (fun r => r.yearMonth)).dedup),
      p ∈ imports.map (fun r => r.yearMonth) ∨
        p ∈ ets.map (fun r => r.yearMonth) ∨
        p ∈ industry.map (fun r => r.yearMonth) := by
    intro p hp
    have hp2 := List.mem_dedup.mp ((sortByKey_perm id _).mem_iff.mp hp)
    rcases List.mem_append.mp hp2 with h12 | h3
    · rcases List.mem_append.mp h12 with h1 | h2
      · exact Or.inl h1
      · exact Or.inr (Or.inl h2)
    · exact Or.inr (Or.inr h3)
  have hrowsorted : ((sortByKey id ((imports.map (fun r => r.yearMonth) ++
      ets.map (fun r => r.yearMonth) ++
      industry.map (fun r => r.yearMonth)).dedup)).map
        (mergedRowFor imports ets industry)).Pairwise
      (fun r s : PanelRow => r.date ≤ s.date) := by
    rw [List.pairwise_map]
    refine List.Pairwise.imp_of_mem ?_ hKlt
    intro a b haK hbK hab
    rw [mergedRowFor_date dateOf imports ets industry hdi hde hdn a
        (hmemK a haK),
      mergedRowFor_date dateOf imports ets industry hdi hde hdn b
        (hmemK b hbK)]
    exact le_of_lt (hmono hab)
  rw [sortByKey_eq_self _ _ hrowsorted, List.map_map]
  have hcomp : (fun r : PanelRow => r.yearMonth) ∘
      mergedRowFor imports ets industry = id := funext fun p => rfl
  rw [hcomp, List.map_id]

/-- C8: under well-formed dates (each source row's date is a fixed strictly
monotone function of its period key), the merged panel's period-key set is
exactly the union of the input series' period-key sets, its keys are
strictly increasing (hence duplicate-free), and the key sequence is
invariant under any permutation of the input rows. -/
theorem c8_merge_union_ordering (dateOf : ℕ → ℕ) (hmono : StrictMono dateOf)
    (imports : List ImportTotalsRow) (ets : List EtsRow)
    (industry : List IndustryRow)
    (hdi : ∀ r ∈ imports, r.date = dateOf r.yearMonth)
    (hde : ∀ r ∈ ets, r.date = dateOf r.yearMonth)
    (hdn : ∀ r ∈ industry, r.date = dateOf r.yearMonth) :
    (∀ p, p ∈ (mergeDatasets imports ets industry).map
        (fun r : PanelRow => r.yearMonth) ↔
      (p ∈ imports.map (fun r => r.yearMonth) ∨
        p ∈ ets.map (fun r => r.yearMonth) ∨
        p ∈ industry.map (fun r => r.yearMonth))) ∧
      ((mergeDatasets imports ets industry).map
        (fun r : PanelRow => r.yearMonth)).Pairwise (· < ·) ∧
      (∀ (imports' : List ImportTotalsRow) (ets' : List EtsRow)
          (industry' : List IndustryRow), imports.Perm imports' →
        ets.Perm ets' → industry.Perm industry' →
        (mergeDatasets imports' ets' industry').map
            (fun r : PanelRow => r.yearMonth) =
          (mergeDatasets imports ets industry).map
            (fun r : PanelRow => r.yearMonth)) := by
  have hmain := mergeDatasets_map_yearMonth dateOf hmono imports ets industry
    hdi hde hdn
  refine ⟨?_, ?_, ?_⟩
  · intro p
    rw [hmain, (sortByKey_perm id _).mem_iff, List.mem_dedup]
    constructor
    · intro hp2
      rcases List.mem_append.mp hp2 with h12 | h3
      · rcases List.mem_append.mp h12 with h1 | h2
        · exact Or.inl h1
        · exact Or.inr (Or.inl h2)
      · exact Or.inr (Or.inr h3)
    · intro hp2
      rcases hp2 with h | h | h
      · exact List.mem_append.mpr (Or.inl (List.mem_append.mpr (Or.inl h)))
      · exact List.mem_append.mpr (Or.inl (List.mem_append.mpr (Or.inr h)))
      · exact List.mem_append.mpr (Or.inr h)
  · rw [hmain]
    exact pairwise_lt_of_pairwise_le_nodup _ (sortByKey_sorted id _)
      (((sortByKey_perm id _).nodup_iff).mpr (List.nodup_dedup _))
  · intro imports' ets' industry' hpi hpe hpn
    have hdi' : ∀ r ∈ imports', r.date = dateOf r.yearMonth :=
      fun r hr => hdi r (hpi.symm.subset hr)
    have hde' : ∀ r ∈ ets', r.date = dateOf r.yearMonth :=
      fun r hr => hde r (hpe.symm.subset hr)
    have hdn' : ∀ r ∈ industry', r.date = dateOf r.yearMonth :=
      fun r hr => hdn r (hpn.symm.subset hr)
    rw [hmain, mergeDatasets_map_yearMonth dateOf hmono imports' ets'
      industry' hdi' hde' hdn']
    have hperm : List.Perm
        ((imports'.map (fun r => r.yearMonth) ++
          ets'.map (fun r => r.yearMonth) ++
          industry'.map (fun r => r.yearMonth)).dedup)
        ((imports.map (fun r => r.yearMonth) ++
          ets.map (fun r => r.yearMonth) ++
          industry.map (fun r => r.yearMonth)).dedup) :=
      (((hpi.symm.map _).append (hpe.symm.map _)).append
        (hpn.symm.map _)).dedup
    have hsorted1 : (sortByKey id ((imports'.map (fun r => r.yearMonth) ++
        ets'.map (fun r => r.yearMonth) ++
        industry'.map (fun r => r.yearMonth)).dedup)).Pairwise
        (fun x y : ℕ => x ≤ y) := sortByKey_sorted id _
    have hsorted2 : (sortByKey id ((imports.map (fun r => r.yearMonth) ++
        ets.map (fun r => r.yearMonth) ++
        industry.map (fun r => r.yearMonth)).dedup)).Pairwise
        (fun x y : ℕ => x ≤ y) := sortByKey_sorted id _
    exact List.eq_of_perm_of_sorted
      (((sortByKey_perm id _).trans hperm).trans (sortByKey_perm id _).symm)
      hsorted1 hsorted2

/-- C8 witness: concrete two-series panel (`dateOf = id`). -/
theorem c8_merge_union_ordering_witness :
    (((mergeDatasets [⟨5, 5, 1, 1, 1⟩] [⟨3, 3, 7⟩] []).map
        (fun r : PanelRow => r.yearMonth)).Pairwise (· < ·)) ∧
      (3 ∈ (mergeDatasets [⟨5, 5, 1, 1, 1⟩] [⟨3, 3, 7⟩] []).map
          (fun r : PanelRow => r.yearMonth) ↔
        (3 ∈ ([⟨5, 5, 1, 1, 1⟩] : List ImportTotalsRow).map
            (fun r => r.yearMonth) ∨
          3 ∈ ([⟨3, 3, 7⟩] : List EtsRow).map (fun r => r.yearMonth) ∨
          3 ∈ ([] : List IndustryRow).map (fun r => r.yearMonth))) :=
  ⟨(c8_merge_union_ordering id strictMono_id [⟨5, 5, 1, 1, 1⟩] [⟨3, 3, 7⟩] []
      (by with_unfolding_all decide) (by with_unfolding_all decide)
      (by with_unfolding_all decide)).2.1,
    (c8_merge_union_ordering id strictMono_id [⟨5, 5, 1, 1, 1⟩] [⟨3, 3, 7⟩] []
      (by with_unfolding_all decide) (by with_unfolding_all decide)
      (by with_unfolding_all decide)).1 3⟩

end CarbonLeakage
